import Mathlib

/-!
Shallow embedding of `kite.go` (package kite): the Kite struct, its
constructor `New`, the identity descriptor method `Kite()`, the trust
store operation `TrustKontrolKey`, the lifecycle hook registration and
firing functions, the websocket connection handler `handleWS`, and the
jwt key-lookup callback `RSAKey`.

External collaborators (the config package, the uuid generator, the
logger, the websocket server, and `addDefaultHandlers`, which live
outside this source slice) appear as explicit parameters carrying the
data they supply; Go maps are modelled as association lists updated by
`mapSet`; Go functions that can return normally, return an `error`
value, or panic are modelled with the `GoResult` outcome type.
-/

namespace KiteSpec

/-- Value stored under one claim key in a parsed JWT claim map
(Go: `map[string]interface{}`). Only the shapes the key-lookup callback
can distinguish are modelled; anything that is not a string fails the
Go `.(string)` type assertion. -/
inductive ClaimValue where
  | str (s : String)
  | num (n : Int)
  | boolean (b : Bool)
  | null
deriving DecidableEq

/-- Go type assertion `v.(string)`: yields the string exactly when the
value is a string (an absent map key reads as `nil`, i.e. `null`, and
fails the assertion too). -/
def ClaimValue.asString : ClaimValue → Option String
  | .str s => some s
  | _ => none

/-- A parsed JWT token as seen by the key-lookup callback (jwt-go's
`jwt.Token`): only the claim map is relevant there. -/
structure Token where
  claims : List (String × ClaimValue)
deriving DecidableEq

/-- Configuration supplied by the external config collaborator
(`github.com/koding/kite/config`), restricted to the fields this
source slice reads. -/
structure Config where
  username : String
  environment : String
  region : String
  kontrolUser : String
  kontrolKey : String
deriving DecidableEq

/-- Labels for the authentication strategies stored in
`Kite.Authenticators` (Go values of type `func(*Request) error`).
The two built-ins are the bound methods `k.AuthenticateFromToken` and
`k.AuthenticateFromKiteKey`, defined outside this source slice;
strategies registered by callers are labelled `custom`. -/
inductive AuthStrategy where
  | authenticateFromToken
  | authenticateFromKiteKey
  | custom (n : Nat)
deriving DecidableEq

/-- Label for a handler function registered in the method map
(Go value of type `HandlerFunc`). -/
structure HandlerFunc where
  idx : Nat
deriving DecidableEq

/-- Identity of a lifecycle hook stored in one of the three handler
lists. `New` registers one built-in logging hook per list; hooks added
by callers are labelled `user`. -/
inductive HookTag where
  | builtinLogConnect
  | builtinLogFirstRequest
  | builtinLogDisconnect
  | user (n : Nat)
deriving DecidableEq

/-- Outcome of a Go function call: normal return, returned `error`
value, or panic. -/
inductive GoResult (α : Type) where
  | ok (a : α)
  | err (msg : String)
  | panic (msg : String)
deriving DecidableEq

/-- True exactly on a normal return. -/
def GoResult.isOk {α : Type} : GoResult α → Bool
  | .ok _ => true
  | _ => false

/-- True exactly on a panic. -/
def GoResult.isPanic {α : Type} : GoResult α → Bool
  | .panic _ => true
  | _ => false

/-- Go map assignment `m[key] = v`, on association lists: the result
binds `key` to `v` and keeps every other key's binding. -/
def mapSet {β : Type} (m : List (String × β)) (key : String) (v : β) :
    List (String × β) :=
  (key, v) :: m.filter (fun p => p.1 != key)

/-- State of a Kite process: the fields of the Go `Kite` struct that
this source slice reads or writes. The logger and the websocket server
are stateless external collaborators and carry nothing the claims
mention. -/
structure Kite where
  config : Config
  authenticators : List (String × AuthStrategy)
  trustedKontrolKeys : List (String × String)
  handlers : List (String × HandlerFunc)
  onConnectHandlers : List HookTag
  onFirstRequestHandlers : List HookTag
  onDisconnectHandlers : List HookTag
  name : String
  version : String
  id : String
deriving DecidableEq

/-- Go `OnConnect`: appends a handler to the onConnect list. -/
def Kite.OnConnect (k : Kite) (handler : HookTag) : Kite :=
  { k with onConnectHandlers := k.onConnectHandlers ++ [handler] }

/-- Go `OnFirstRequest`: appends a handler to the onFirstRequest list. -/
def Kite.OnFirstRequest (k : Kite) (handler : HookTag) : Kite :=
  { k with onFirstRequestHandlers := k.onFirstRequestHandlers ++ [handler] }

/-- Go `OnDisconnect`: appends a handler to the onDisconnect list. -/
def Kite.OnDisconnect (k : Kite) (handler : HookTag) : Kite :=
  { k with onDisconnectHandlers := k.onDisconnectHandlers ++ [handler] }

/-- Go `strings.Split(s, ".")` on the character list of `s`: cuts at
every dot. As in Go, splitting the empty string yields one empty
component, and a string with `n` dots yields `n + 1` components. -/
def splitDots : List Char → List (List Char)
  | [] => [[]]
  | c :: rest =>
    match splitDots rest with
    | [] => [[]]
    | comp :: comps =>
      if c = '.' then [] :: comp :: comps else (c :: comp) :: comps

/-- Go `New(name, version)`. The external effects are parameters:
`cfg` is the value `config.New()` returns, `kiteID` the freshly
generated UUID string (the panic on UUID generation failure is an
external-collaborator failure, outside this model), and
`defaultHandlers` the method map that `addDefaultHandlers` (defined
outside this slice) registers. The version check splits on dots and
compares the component count with 3, exactly as
`len(strings.Split(version, ".")) != 3` does. -/
def New (cfg : Config) (kiteID : String)
    (defaultHandlers : List (String × HandlerFunc))
    (name version : String) : GoResult Kite :=
  if name = "" then
    .panic "kite: name cannot be empty"
  else if (splitDots version.toList).length ≠ 3 then
    .panic "kite: version must be 3-digits semantic version"
  else
    let k0 : Kite :=
      { config := cfg
        authenticators := []
        trustedKontrolKeys := []
        handlers := []
        onConnectHandlers := []
        onFirstRequestHandlers := []
        onDisconnectHandlers := []
        name := name
        version := version
        id := kiteID }
    let k1 :=
      ((k0.OnConnect .builtinLogConnect).OnFirstRequest
          .builtinLogFirstRequest).OnDisconnect .builtinLogDisconnect
    let k2 :=
      { k1 with
        authenticators :=
          mapSet (mapSet k1.authenticators "token" .authenticateFromToken)
            "kiteKey" .authenticateFromKiteKey }
    .ok { k2 with handlers := defaultHandlers }

/-- The `protocol.Kite` identity descriptor exposed to peers. -/
structure ProtocolKite where
  username : String
  environment : String
  name : String
  version : String
  region : String
  hostname : String
  id : String
deriving DecidableEq

/-- Go method `Kite() *protocol.Kite`: builds the identity descriptor
from the configuration, the constructor-stored name, version and id,
and the package-global `hostname` (resolved once in `init`), passed
here as `host`. -/
def Kite.KiteDescriptor (k : Kite) (host : String) : ProtocolKite :=
  { username := k.config.username
    environment := k.config.environment
    name := k.name
    version := k.version
    region := k.config.region
    hostname := host
    id := k.id }

/-- Go `TrustKontrolKey`: the map assignment
`k.trustedKontrolKeys[issuer] = key`. -/
def Kite.TrustKontrolKey (k : Kite) (issuer key : String) : Kite :=
  { k with trustedKontrolKeys := mapSet k.trustedKontrolKeys issuer key }

/-- Go `RSAKey`: the key-lookup callback handed to jwt-go. It panics
when the configured Kontrol key is empty; otherwise it reads the `iss`
claim through a string type assertion (error return on failure),
rejects an issuer different from the configured Kontrol user with an
"issuer is not trusted" error, and returns the configured Kontrol key
otherwise. Note that it reads `Config.KontrolUser` and
`Config.KontrolKey` only; it does not consult `trustedKontrolKeys`. -/
def Kite.RSAKey (k : Kite) (token : Token) : GoResult String :=
  if k.config.kontrolKey = "" then
    .panic "kontrol key is not set in config"
  else
    match (token.claims.lookup "iss").bind ClaimValue.asString with
    | none => .err "token does not contain a valid issuer claim"
    | some issuer =>
      if issuer ≠ k.config.kontrolUser then
        .err ("issuer is not trusted: " ++ issuer)
      else
        .ok k.config.kontrolKey

/-- Execution of one handler-call loop (`callOnConnectHandlers`,
`callOnFirstRequestHandlers`, `callOnDisconnectHandlers`): the
handlers run one at a time in list order. `behaves h = true` means
hook `h` returns normally; `behaves h = false` means its invocation
panics, and since the loop has no `recover` the panic propagates and
the loop stops. The result is the list of hooks actually invoked, in
order, paired with whether the loop completed normally. -/
def callHandlers (behaves : HookTag → Bool) : List HookTag → List HookTag × Bool
  | [] => ([], true)
  | h :: rest =>
    if behaves h then
      let r := callHandlers behaves rest
      (h :: r.1, r.2)
    else
      ([h], false)

/-- Go `callOnConnectHandlers`: runs the onConnect list. -/
def Kite.callOnConnectHandlers (k : Kite) (behaves : HookTag → Bool) :
    List HookTag × Bool :=
  callHandlers behaves k.onConnectHandlers

/-- Go `callOnFirstRequestHandlers`: runs the onFirstRequest list. -/
def Kite.callOnFirstRequestHandlers (k : Kite) (behaves : HookTag → Bool) :
    List HookTag × Bool :=
  callHandlers behaves k.onFirstRequestHandlers

/-- Go `callOnDisconnectHandlers`: runs the onDisconnect list. -/
def Kite.callOnDisconnectHandlers (k : Kite) (behaves : HookTag → Bool) :
    List HookTag × Bool :=
  callHandlers behaves k.onDisconnectHandlers

/-- Reason the Client read loop returned. -/
inductive ReadExitReason where
  | peerClosed
  | ioError
  | localClose
deriving DecidableEq

/-- Observable steps of `handleWS` for one connection. -/
inductive WSEvent where
  | newClient
  | connectHooksFired
  | readLoopEnter
  | readLoopExit (r : ReadExitReason)
  | clientOnConnectCalled
  | disconnectHooksFired
  | wsClosed
deriving DecidableEq

/-- Go `handleWS`, as the trace of the steps it performs for one
connection: create the Client, fire the connect hooks, run the read
loop until it returns (for whatever reason `r`), call the Client's own
connect handlers, fire the disconnect hooks; the deferred `ws.Close()`
runs last. -/
def handleWS (r : ReadExitReason) : List WSEvent :=
  [.newClient, .connectHooksFired, .readLoopEnter, .readLoopExit r,
    .clientOnConnectCalled, .disconnectHooksFired, .wsClosed]

/-! Helper lemmas about `mapSet` and association-list lookup. -/

/-- Filtering out a key twice is the same as filtering it out once. -/
theorem filter_key_idem {β : Type} (m : List (String × β)) (key : String) :
    ((m.filter fun p => p.1 != key).filter fun p => p.1 != key) =
      m.filter fun p => p.1 != key := by
  induction m with
  | nil => rfl
  | cons hd tl ih =>
    by_cases h : hd.1 = key
    · simp [h, ih]
    · simp [List.filter_cons, h, ih]

/-- Setting the same key to the same value twice equals setting it once. -/
theorem mapSet_mapSet_self {β : Type} (m : List (String × β)) (key : String)
    (v : β) : mapSet (mapSet m key v) key v = mapSet m key v := by
  simp [mapSet, List.filter_cons, filter_key_idem]

/-- Setting a key twice keeps only the last value bound to it. -/
theorem mapSet_mapSet_last {β : Type} (m : List (String × β)) (key : String)
    (v1 v2 : β) : mapSet (mapSet m key v1) key v2 = mapSet m key v2 := by
  simp [mapSet, List.filter_cons, filter_key_idem]

/-- Lookup of a key survives filtering out a different key. -/
theorem lookup_filter_ne {β : Type} (m : List (String × β)) (key j : String)
    (h : j ≠ key) :
    (m.filter fun p => p.1 != key).lookup j = m.lookup j := by
  induction m with
  | nil => rfl
  | cons hd tl ih =>
    by_cases hk : hd.1 = key
    · have hj : (j == key) = false := beq_eq_false_iff_ne.mpr h
      simp [List.filter_cons, hk, List.lookup, hj, ih]
    · have hbne : (hd.1 != key) = true := by simp [bne_iff_ne, hk]
      simp only [List.filter_cons, hbne, if_true, List.lookup]
      cases hjh : j == hd.1 <;> simp [hjh, ih]

/-- Lookup of the key just set returns the value just set. -/
theorem lookup_mapSet_self {β : Type} (m : List (String × β)) (key : String)
    (v : β) : (mapSet m key v).lookup key = some v := by
  simp [mapSet, List.lookup]

/-- Lookup of any other key is unchanged by `mapSet`. -/
theorem lookup_mapSet_ne {β : Type} (m : List (String × β)) (key j : String)
    (v : β) (h : j ≠ key) : (mapSet m key v).lookup j = m.lookup j := by
  have hj : (j == key) = false := by simp [beq_eq_false_iff_ne, h]
  simp [mapSet, List.lookup, hj, lookup_filter_ne _ _ _ h]

/-! Concrete fixtures used by closed theorems: a configuration as the
config collaborator would supply it and the Kite state `New` builds
from it. -/

/-- A configuration with the Kontrol user and key set. -/
def cfgPlain : Config :=
  { username := "worker"
    environment := "dev"
    region := "us"
    kontrolUser := "kontrol"
    kontrolKey := "KONTROL-PEM-KEY" }

/-- The Kite state produced by
`New cfgPlain "kite-id-0" [] "mathworker" "1.0.0"` (checked by
`New_kiteNew` below). -/
def kiteNew : Kite :=
  { config := cfgPlain
    authenticators :=
      [("kiteKey", .authenticateFromKiteKey), ("token", .authenticateFromToken)]
    trustedKontrolKeys := []
    handlers := []
    onConnectHandlers := [.builtinLogConnect]
    onFirstRequestHandlers := [.builtinLogFirstRequest]
    onDisconnectHandlers := [.builtinLogDisconnect]
    name := "mathworker"
    version := "1.0.0"
    id := "kite-id-0" }

/-- The fixture `kiteNew` is exactly what the constructor returns. -/
theorem New_kiteNew :
    New cfgPlain "kite-id-0" [] "mathworker" "1.0.0" = GoResult.ok kiteNew := by
  decide

/-- A token whose only claim is the string issuer "kontrol". -/
def tokenFromKontrol : Token := { claims := [("iss", .str "kontrol")] }

/-- A token whose issuer claim is present but not a string, so the
`.(string)` type assertion fails on it. -/
def tokenNumericIss : Token := { claims := [("iss", .num 42)] }

/-- The `New`-built Kite with the Kontrol key erased from its
configuration. -/
def kiteNoKontrolKey : Kite :=
  { kiteNew with config := { cfgPlain with kontrolKey := "" } }

/-- C1: contrary to the claim, the key-lookup step does not consult the
trusted key set populated by `TrustKontrolKey`. On a freshly
constructed Kite whose trusted key set is empty (no `TrustKontrolKey`
call was ever made) but whose configuration names Kontrol user
"kontrol" with a key, `RSAKey` accepts a token with issuer "kontrol"
and returns the configured key, even though that issuer has no entry
in the trusted key set. -/
theorem rsaKey_ignores_trusted_key_set :
    kiteNew.trustedKontrolKeys.lookup "kontrol" = none ∧
      kiteNew.RSAKey tokenFromKontrol = GoResult.ok "KONTROL-PEM-KEY" := by
  exact ⟨rfl, by decide⟩

/-- C2 counterexample: in the configuration state where the Kontrol key
is empty — the state every freshly constructed Kite is in until the
configuration is filled in — `RSAKey` panics instead of returning an
error value, even on a well-formed token. -/
theorem rsaKey_panics_without_kontrol_key :
    Kite.RSAKey kiteNoKontrolKey tokenFromKontrol =
      GoResult.panic "kontrol key is not set in config" := by
  decide

/-- C2 (amended): whenever the configured Kontrol key is non-empty,
`RSAKey` never panics, and a malformed or missing issuer claim (one
that fails the string type assertion) yields the error return
"token does not contain a valid issuer claim". -/
theorem rsaKey_rejects_rather_than_panics (k : Kite) (t : Token)
    (h : k.config.kontrolKey ≠ "") :
    (k.RSAKey t).isPanic = false ∧
      ((t.claims.lookup "iss").bind ClaimValue.asString = none →
        k.RSAKey t = GoResult.err "token does not contain a valid issuer claim") := by
  unfold Kite.RSAKey
  rw [if_neg h]
  cases hm : (t.claims.lookup "iss").bind ClaimValue.asString with
  | none => exact ⟨rfl, fun _ => rfl⟩
  | some issuer =>
    refine ⟨?_, fun hn => by simp at hn⟩
    by_cases hi : issuer ≠ k.config.kontrolUser
    · simp [hi, GoResult.isPanic]
    · simp [hi, GoResult.isPanic]

/-- C2 witness: applying the amended theorem at a concrete Kite with a
non-empty Kontrol key and a token whose issuer claim is a number. -/
theorem rsaKey_rejects_rather_than_panics_witness :
    Kite.RSAKey kiteNew tokenNumericIss =
      GoResult.err "token does not contain a valid issuer claim" :=
  (rsaKey_rejects_rather_than_panics kiteNew tokenNumericIss
    (by decide)).2 (by decide)

/-- The spec-side numeric check on one dot-separated component: a
non-empty run of decimal digits. Stated only to exhibit that the code
does not perform it; the source checks nothing but the component
count. -/
def isNumericComponent (comp : List Char) : Bool :=
  !comp.isEmpty && comp.all Char.isDigit

/-- C3 counterexample: `New` accepts the version "a.b.c", whose three
dot-separated components are not numeric; construction succeeds even
though the claim says it must abort on any version that is not three
numeric components. -/
theorem new_accepts_nonnumeric_version :
    (New cfgPlain "kite-id-3" [] "mathworker" "a.b.c").isOk = true ∧
      (splitDots ("a.b.c".toList)).all isNumericComponent = false := by
  decide

/-- C3 (amended): `New` fails fatally (panics) exactly when the name is
empty or the version's dot-split does not have exactly three
components, numeric or not; otherwise it returns a constructed Kite. -/
theorem new_validation (cfg : Config) (kiteID : String)
    (defaultHandlers : List (String × HandlerFunc)) (name version : String) :
    ((New cfg kiteID defaultHandlers name version).isOk = true ↔
      (name ≠ "" ∧ (splitDots version.toList).length = 3)) ∧
    ((New cfg kiteID defaultHandlers name version).isPanic = true ↔
      (name = "" ∨ (splitDots version.toList).length ≠ 3)) := by
  unfold New
  by_cases h1 : name = ""
  · simp [h1, GoResult.isOk, GoResult.isPanic]
  · by_cases h2 : (splitDots version.toList).length = 3
    · have h2d : (splitDots version.data).length = 3 := h2
      simp [h1, h2, h2d, GoResult.isOk, GoResult.isPanic]
    · have h2d : ¬(splitDots version.data).length = 3 := h2
      simp [h1, h2, h2d, GoResult.isOk, GoResult.isPanic]

/-- C3 witness: the amended theorem applied at a concrete non-empty
name and three-component version yields a successful construction. -/
theorem new_validation_witness :
    (New cfgPlain "kite-id-0" [] "mathworker" "1.0.0").isOk = true :=
  (new_validation cfgPlain "kite-id-0" [] "mathworker" "1.0.0").1.mpr
    ⟨by decide, by decide⟩

/-- C4: for any constructed Kite, the identity descriptor built by the
`Kite()` method carries the username, environment and region of the
configuration, exactly the name and version passed to the constructor,
the hostname resolved at process start, and the instance id generated
at construction. The descriptor is a pure function of the Kite state,
so it is derivable at any time, before any connection is made. -/
theorem kite_descriptor_fields (cfg : Config) (kiteID : String)
    (defaultHandlers : List (String × HandlerFunc)) (name version host : String)
    (k : Kite) (h : New cfg kiteID defaultHandlers name version = GoResult.ok k) :
    k.KiteDescriptor host =
      { username := cfg.username
        environment := cfg.environment
        name := name
        version := version
        region := cfg.region
        hostname := host
        id := kiteID } := by
  unfold New at h
  split at h
  · simp at h
  · split at h
    · simp at h
    · cases h
      rfl

/-- C4 witness: the descriptor of the concretely constructed Kite. -/
theorem kite_descriptor_fields_witness :
    kiteNew.KiteDescriptor "myhost" =
      { username := "worker"
        environment := "dev"
        name := "mathworker"
        version := "1.0.0"
        region := "us"
        hostname := "myhost"
        id := "kite-id-0" } :=
  kite_descriptor_fields cfgPlain "kite-id-0" [] "mathworker" "1.0.0" "myhost"
    kiteNew New_kiteNew

/-- C5: immediately after construction the authenticator registry has
the token strategy under the tag "token" and the same-account strategy
under the tag "kiteKey", and no entry under any other tag. -/
theorem initial_authenticators (cfg : Config) (kiteID : String)
    (defaultHandlers : List (String × HandlerFunc)) (name version : String)
    (k : Kite) (h : New cfg kiteID defaultHandlers name version = GoResult.ok k) :
    k.authenticators.lookup "token" = some AuthStrategy.authenticateFromToken ∧
    k.authenticators.lookup "kiteKey" = some AuthStrategy.authenticateFromKiteKey ∧
    ∀ tag : String, tag ≠ "token" → tag ≠ "kiteKey" →
      k.authenticators.lookup tag = none := by
  unfold New at h
  split at h
  · simp at h
  · split at h
    · simp at h
    · cases h
      refine ⟨rfl, rfl, fun tag h1 h2 => ?_⟩
      have b1 : (tag == "kiteKey") = false := beq_eq_false_iff_ne.mpr h2
      have b2 : (tag == "token") = false := beq_eq_false_iff_ne.mpr h1
      simp [mapSet, List.lookup, List.filter, b1, b2]

/-- C5 witness: the registry of the concretely constructed Kite has the
token strategy under "token" and nothing under "oauth". -/
theorem initial_authenticators_witness :
    kiteNew.authenticators.lookup "token" =
        some AuthStrategy.authenticateFromToken ∧
      kiteNew.authenticators.lookup "oauth" = none :=
  ⟨(initial_authenticators cfgPlain "kite-id-0" [] "mathworker" "1.0.0" kiteNew
      New_kiteNew).1,
    (initial_authenticators cfgPlain "kite-id-0" [] "mathworker" "1.0.0" kiteNew
      New_kiteNew).2.2 "oauth" (by decide) (by decide)⟩

/-- Behaviour assignment under which the hook labelled `user 0` panics
when invoked and every other hook returns normally. -/
def onePanicking : HookTag → Bool
  | HookTag.user 0 => false
  | _ => true

/-- C6 counterexample: with three hooks registered on the onConnect
list, the second of which fails, firing the event invokes only the
first two hooks — the failure aborts the loop (there is no `recover`),
so the third registered hook never runs, contrary to the claim that
one hook's failure does not prevent the remaining hooks from running. -/
theorem hook_failure_aborts_remaining :
    ((kiteNew.OnConnect (HookTag.user 0)).OnConnect
          (HookTag.user 1)).onConnectHandlers =
        [HookTag.builtinLogConnect, HookTag.user 0, HookTag.user 1] ∧
      ((kiteNew.OnConnect (HookTag.user 0)).OnConnect
            (HookTag.user 1)).callOnConnectHandlers onePanicking =
        ([HookTag.builtinLogConnect, HookTag.user 0], false) := by
  exact ⟨rfl, rfl⟩

/-- C6 (amended): for each of the three lifecycle events, registering a
hook appends it to that event's ordered list, and firing the event
invokes the registered hooks synchronously in registration order; when
every hook returns normally all of them run, but a hook's failure
(panic) stops the remaining hooks, since the call loop has no
recovery. -/
theorem hook_registration_appends_and_fires_in_order :
    (∀ (k : Kite) (hk : HookTag),
        (k.OnConnect hk).onConnectHandlers = k.onConnectHandlers ++ [hk]) ∧
    (∀ (k : Kite) (hk : HookTag),
        (k.OnFirstRequest hk).onFirstRequestHandlers =
          k.onFirstRequestHandlers ++ [hk]) ∧
    (∀ (k : Kite) (hk : HookTag),
        (k.OnDisconnect hk).onDisconnectHandlers =
          k.onDisconnectHandlers ++ [hk]) ∧
    (∀ (behaves : HookTag → Bool) (l : List HookTag),
        (∀ hk ∈ l, behaves hk = true) → callHandlers behaves l = (l, true)) := by
  refine ⟨fun k hk => rfl, fun k hk => rfl, fun k hk => rfl,
    fun behaves l hl => ?_⟩
  induction l with
  | nil => rfl
  | cons hd tl ih =>
    have hhd : behaves hd = true := hl hd (by simp)
    have htl : ∀ hk ∈ tl, behaves hk = true := fun hk hm => hl hk (by simp [hm])
    simp [callHandlers, hhd, ih htl]

/-- C6 witness: firing a two-hook list whose hooks all return normally
invokes both, in registration order. -/
theorem hook_registration_appends_and_fires_in_order_witness :
    callHandlers (fun _ => true)
        [HookTag.builtinLogConnect, HookTag.user 0, HookTag.user 1] =
      ([HookTag.builtinLogConnect, HookTag.user 0, HookTag.user 1], true) :=
  hook_registration_appends_and_fires_in_order.2.2.2 (fun _ => true)
    [HookTag.builtinLogConnect, HookTag.user 0, HookTag.user 1]
    (fun _ _ => rfl)

/-- C7: `TrustKontrolKey` is an idempotent upsert with no error path:
calling it twice with the same issuer and key leaves the whole Kite in
the same state as calling it once, a call binds the issuer to the
given key, and of two successive calls for the same issuer the most
recent key wins. -/
theorem trustKontrolKey_idempotent_upsert :
    (∀ (k : Kite) (issuer key : String),
        (k.TrustKontrolKey issuer key).TrustKontrolKey issuer key =
          k.TrustKontrolKey issuer key) ∧
    (∀ (k : Kite) (issuer key : String),
        (k.TrustKontrolKey issuer key).trustedKontrolKeys.lookup issuer =
          some key) ∧
    (∀ (k : Kite) (issuer key1 key2 : String),
        ((k.TrustKontrolKey issuer key1).TrustKontrolKey issuer
              key2).trustedKontrolKeys.lookup issuer = some key2) := by
  refine ⟨fun k issuer key => ?_, fun k issuer key => lookup_mapSet_self _ _ _,
    fun k issuer key1 key2 => lookup_mapSet_self _ _ _⟩
  simp [Kite.TrustKontrolKey, mapSet_mapSet_self]

/-- C7 witness: the upsert applied at a concrete Kite, issuer and
keys — the double call collapses and the later key wins. -/
theorem trustKontrolKey_idempotent_upsert_witness :
    (kiteNew.TrustKontrolKey "kontrol" "K1").TrustKontrolKey "kontrol" "K1" =
        kiteNew.TrustKontrolKey "kontrol" "K1" ∧
      ((kiteNew.TrustKontrolKey "kontrol" "K1").TrustKontrolKey "kontrol"
            "K2").trustedKontrolKeys.lookup "kontrol" = some "K2" :=
  ⟨trustKontrolKey_idempotent_upsert.1 kiteNew "kontrol" "K1",
    trustKontrolKey_idempotent_upsert.2.2 kiteNew "kontrol" "K1" "K2"⟩

/-- C8: for every reason the read loop can exit, the `handleWS` trace
fires the disconnect hooks exactly once, and never before the read
loop has returned. -/
theorem disconnect_hooks_once_after_read_loop (r : ReadExitReason) :
    (handleWS r).count WSEvent.disconnectHooksFired = 1 ∧
      ((handleWS r).takeWhile fun e => e != WSEvent.readLoopExit r).count
          WSEvent.disconnectHooksFired = 0 := by
  cases r <;> exact ⟨rfl, rfl⟩

/-- C8 witness: the trace of a connection whose read loop exits on an
I/O error fires the disconnect hooks exactly once. -/
theorem disconnect_hooks_once_after_read_loop_witness :
    (handleWS ReadExitReason.ioError).count WSEvent.disconnectHooksFired = 1 :=
  (disconnect_hooks_once_after_read_loop ReadExitReason.ioError).1

/-- C9: construction pre-registers exactly one built-in logging hook on
each of the three lifecycle lists, and for any hook a caller registers
afterwards, firing the event invokes the built-in logging hook first. -/
theorem builtin_logging_hooks_first (cfg : Config) (kiteID : String)
    (defaultHandlers : List (String × HandlerFunc)) (name version : String)
    (k : Kite) (h : New cfg kiteID defaultHandlers name version = GoResult.ok k) :
    k.onConnectHandlers = [HookTag.builtinLogConnect] ∧
    k.onFirstRequestHandlers = [HookTag.builtinLogFirstRequest] ∧
    k.onDisconnectHandlers = [HookTag.builtinLogDisconnect] ∧
    (∀ (hk : HookTag) (behaves : HookTag → Bool),
        ((k.OnConnect hk).callOnConnectHandlers behaves).1.head? =
          some HookTag.builtinLogConnect) ∧
    (∀ (hk : HookTag) (behaves : HookTag → Bool),
        ((k.OnFirstRequest hk).callOnFirstRequestHandlers behaves).1.head? =
          some HookTag.builtinLogFirstRequest) ∧
    (∀ (hk : HookTag) (behaves : HookTag → Bool),
        ((k.OnDisconnect hk).callOnDisconnectHandlers behaves).1.head? =
          some HookTag.builtinLogDisconnect) := by
  unfold New at h
  split at h
  · simp at h
  · split at h
    · simp at h
    · cases h
      refine ⟨rfl, rfl, rfl, fun hk behaves => ?_, fun hk behaves => ?_,
        fun hk behaves => ?_⟩
      · cases hb : behaves HookTag.builtinLogConnect <;>
          simp [Kite.callOnConnectHandlers, Kite.OnConnect, callHandlers, hb]
      · cases hb : behaves HookTag.builtinLogFirstRequest <;>
          simp [Kite.callOnFirstRequestHandlers, Kite.OnFirstRequest,
            callHandlers, hb]
      · cases hb : behaves HookTag.builtinLogDisconnect <;>
          simp [Kite.callOnDisconnectHandlers, Kite.OnDisconnect,
            callHandlers, hb]

/-- C9 witness: applying the theorem at the concretely constructed
Kite — the onConnect list is exactly the built-in hook, and after a
caller registers a hook, firing invokes the built-in hook first. -/
theorem builtin_logging_hooks_first_witness :
    kiteNew.onConnectHandlers = [HookTag.builtinLogConnect] ∧
      ((kiteNew.OnConnect (HookTag.user 7)).callOnConnectHandlers
          (fun _ => true)).1.head? = some HookTag.builtinLogConnect :=
  ⟨(builtin_logging_hooks_first cfgPlain "kite-id-0" [] "mathworker" "1.0.0"
      kiteNew New_kiteNew).1,
    (builtin_logging_hooks_first cfgPlain "kite-id-0" [] "mathworker" "1.0.0"
      kiteNew New_kiteNew).2.2.2.1 (HookTag.user 7) (fun _ => true)⟩

/-- C10: `TrustKontrolKey` modifies only the trusted-key-set entry for
the given issuer: every other field of the Kite, and the binding of
every other issuer, is unchanged by the call. -/
theorem trustKontrolKey_frame (k : Kite) (issuer key : String) :
    (k.TrustKontrolKey issuer key).config = k.config ∧
    (k.TrustKontrolKey issuer key).authenticators = k.authenticators ∧
    (k.TrustKontrolKey issuer key).handlers = k.handlers ∧
    (k.TrustKontrolKey issuer key).onConnectHandlers = k.onConnectHandlers ∧
    (k.TrustKontrolKey issuer key).onFirstRequestHandlers =
      k.onFirstRequestHandlers ∧
    (k.TrustKontrolKey issuer key).onDisconnectHandlers =
      k.onDisconnectHandlers ∧
    (k.TrustKontrolKey issuer key).name = k.name ∧
    (k.TrustKontrolKey issuer key).version = k.version ∧
    (k.TrustKontrolKey issuer key).id = k.id ∧
    ∀ j : String, j ≠ issuer →
      (k.TrustKontrolKey issuer key).trustedKontrolKeys.lookup j =
        k.trustedKontrolKeys.lookup j := by
  refine ⟨rfl, rfl, rfl, rfl, rfl, rfl, rfl, rfl, rfl, fun j hj => ?_⟩
  exact lookup_mapSet_ne _ _ _ _ hj

/-- C10 witness: at a concrete Kite and issuer, the name field and the
binding of a different issuer survive the call. -/
theorem trustKontrolKey_frame_witness :
    (kiteNew.TrustKontrolKey "kontrol" "KEY-A").name = kiteNew.name ∧
      (kiteNew.TrustKontrolKey "kontrol" "KEY-A").trustedKontrolKeys.lookup
          "other" = kiteNew.trustedKontrolKeys.lookup "other" :=
  ⟨(trustKontrolKey_frame kiteNew "kontrol" "KEY-A").2.2.2.2.2.2.1,
    (trustKontrolKey_frame kiteNew "kontrol" "KEY-A").2.2.2.2.2.2.2.2.2 "other"
      (by decide)⟩

end KiteSpec
